import Mathlib

set_option maxRecDepth 4000

/-!
Verification of the plugin-host example: a host program that loads native
extension modules, lets them register interactive commands through an
ABI-stable `CommandHandler` value, and governs module load/unload.

The development shallowly embeds the three Rust source files:
  - plugin-sdk/src/lib.rs   (ABI-stable value types, CommandHandler)
  - host-program/src/main.rs (host state machine, loader, registry, loop)
  - sample-plugin/src/lib.rs (the sample extension's exported symbols)
-/

namespace PluginSdk

/-!
## ABI-stable string types (plugin-sdk/src/lib.rs, FfiSafeString / FfiSafeStr)

A Rust `String` is a UTF-8 encoded byte buffer.  `FfiSafeString::new`
(lines 113-126 of plugin-sdk/src/lib.rs) shrinks the buffer, takes its raw
pointer and length, and forgets the vector, so the `FfiSafeString` owns
exactly the UTF-8 bytes of the text.  `as_str` (lines 143-147) rebuilds the
byte slice from the pointer and length and reinterprets it as text with
`from_utf8_unchecked`.  We model the byte buffer as a `List Nat` of byte
values and make the encoding explicit: construction UTF-8-encodes the text,
reading back UTF-8-decodes the stored bytes.
-/

/-- Standard UTF-8 encoding of one code point `n` (the byte layout a Rust
`String` stores, and the same layout as `String.utf8EncodeChar` in Lean),
with bytes as `Nat` values. -/
def utf8EncodeCharNat (n : Nat) : List Nat :=
  if n ≤ 0x7f then
    [n]
  else if n ≤ 0x7ff then
    [0xc0 + n / 64, 0x80 + n % 64]
  else if n ≤ 0xffff then
    [0xe0 + n / 4096, 0x80 + n / 64 % 64, 0x80 + n % 64]
  else
    [0xf0 + n / 262144, 0x80 + n / 4096 % 64, 0x80 + n / 64 % 64, 0x80 + n % 64]

/-- UTF-8 encoding of a whole text, character by character. -/
def utf8EncodeText (cs : List Char) : List Nat :=
  (cs.map (fun c => utf8EncodeCharNat c.toNat)).flatten

/-- Decode the continuation byte of a 2-byte UTF-8 sequence whose lead
byte is `b`: yields the code point and the remaining bytes. -/
def decodeTail1 (b : Nat) : List Nat → Option (Nat × List Nat)
  | b1 :: rest =>
    if 0x80 ≤ b1 ∧ b1 < 0xc0 then some ((b - 0xc0) * 64 + (b1 - 0x80), rest) else none
  | [] => none

/-- Decode the two continuation bytes of a 3-byte UTF-8 sequence whose
lead byte is `b`. -/
def decodeTail2 (b : Nat) : List Nat → Option (Nat × List Nat)
  | b1 :: b2 :: rest =>
    if (0x80 ≤ b1 ∧ b1 < 0xc0) ∧ (0x80 ≤ b2 ∧ b2 < 0xc0) then
      some ((b - 0xe0) * 4096 + (b1 - 0x80) * 64 + (b2 - 0x80), rest)
    else none
  | _ => none

/-- Decode the three continuation bytes of a 4-byte UTF-8 sequence whose
lead byte is `b`. -/
def decodeTail3 (b : Nat) : List Nat → Option (Nat × List Nat)
  | b1 :: b2 :: b3 :: rest =>
    if (0x80 ≤ b1 ∧ b1 < 0xc0) ∧ (0x80 ≤ b2 ∧ b2 < 0xc0) ∧ (0x80 ≤ b3 ∧ b3 < 0xc0) then
      some ((b - 0xf0) * 262144 + (b1 - 0x80) * 4096 + (b2 - 0x80) * 64 + (b3 - 0x80), rest)
    else none
  | _ => none

/-- Decode one UTF-8-encoded code point from the front of a byte list:
the code point and the remaining bytes, or `none` when the front is not a
well-formed sequence (lead bytes 0x80-0xc1 and 0xf5-0xff are never
valid). -/
def utf8DecodeStep : List Nat → Option (Nat × List Nat)
  | [] => none
  | b :: rest =>
    if b < 0x80 then some (b, rest)
    else if b < 0xc2 then none
    else if b < 0xe0 then decodeTail1 b rest
    else if b < 0xf0 then decodeTail2 b rest
    else if b < 0xf5 then decodeTail3 b rest
    else none

/-- A successful `decodeTail1` consumes one byte. -/
theorem decodeTail1_shrinks (b : Nat) (l : List Nat) (c : Nat) (r : List Nat)
    (h : decodeTail1 b l = some (c, r)) : r.length + 1 ≤ l.length := by
  match l with
  | [] => simp [decodeTail1] at h
  | b1 :: rest =>
    simp only [decodeTail1] at h
    split at h
    · cases h; simp
    · cases h

/-- A successful `decodeTail2` consumes two bytes. -/
theorem decodeTail2_shrinks (b : Nat) (l : List Nat) (c : Nat) (r : List Nat)
    (h : decodeTail2 b l = some (c, r)) : r.length + 2 ≤ l.length := by
  match l with
  | [] => simp [decodeTail2] at h
  | [b1] => simp [decodeTail2] at h
  | b1 :: b2 :: rest =>
    simp only [decodeTail2] at h
    split at h
    · cases h; simp
    · cases h

/-- A successful `decodeTail3` consumes three bytes. -/
theorem decodeTail3_shrinks (b : Nat) (l : List Nat) (c : Nat) (r : List Nat)
    (h : decodeTail3 b l = some (c, r)) : r.length + 3 ≤ l.length := by
  match l with
  | [] => simp [decodeTail3] at h
  | [b1] => simp [decodeTail3] at h
  | [b1, b2] => simp [decodeTail3] at h
  | b1 :: b2 :: b3 :: rest =>
    simp only [decodeTail3] at h
    split at h
    · cases h; simp
    · cases h

/-- A successful decode step strictly shrinks the byte list. -/
theorem utf8DecodeStep_shrinks (l : List Nat) (c : Nat) (r : List Nat)
    (h : utf8DecodeStep l = some (c, r)) : r.length < l.length := by
  match l with
  | [] => simp [utf8DecodeStep] at h
  | b :: rest =>
    simp only [utf8DecodeStep] at h
    split at h
    · cases h; simp
    · split at h
      · cases h
      · split at h
        · have := decodeTail1_shrinks b rest c r h
          simp
          omega
        · split at h
          · have := decodeTail2_shrinks b rest c r h
            simp
            omega
          · split at h
            · have := decodeTail3_shrinks b rest c r h
              simp
              omega
            · cases h

/-- UTF-8 decoding of a byte list into the list of code points it encodes
(`none` when the bytes are not a valid encoding).  This is what
reinterpreting the owned buffer as text (`from_utf8_unchecked` on a buffer
that is valid by construction) yields. -/
def utf8DecodeText (l : List Nat) : Option (List Nat) :=
  match hstep : utf8DecodeStep l with
  | none => if l.isEmpty then some [] else none
  | some (c, r) => (utf8DecodeText r).map (fun t => c :: t)
termination_by l.length
decreasing_by exact utf8DecodeStep_shrinks l c r hstep

/-- `FfiSafeString` (plugin-sdk/src/lib.rs lines 107-110): a pointer plus
length owning a byte buffer.  The buffer contents are modelled as the list
of bytes; `len` is the stored length field. -/
structure FfiSafeString where
  data : List Nat
  len : Nat
deriving DecidableEq

/-- `FfiSafeString::new` (lines 113-126): takes ownership of the string's
UTF-8 byte buffer (after `shrink_to_fit`, so length equals the buffer
size) and records its pointer and length. -/
def FfiSafeString.new (s : String) : FfiSafeString :=
  let bytes := utf8EncodeText s.data
  { data := bytes, len := bytes.length }

/-- `FfiSafeString::as_str` (lines 143-147): rebuilds the `len`-byte slice
behind the pointer and reinterprets it as text.  Decoding yields the text
as a string (each decoded code point is a valid scalar value for buffers
built by `new`). -/
def FfiSafeString.as_str (x : FfiSafeString) : Option String :=
  (utf8DecodeText (x.data.take x.len)).map (fun cps => ⟨cps.map Char.ofNat⟩)

/-- `FfiSafeStr` (lines 159-162): a borrowed pointer+length view of text
owned elsewhere.  The view's contents are the text it points at. -/
structure FfiSafeStr where
  data : String
deriving DecidableEq

/-- `FfiSafeStr::new` (lines 165-169): borrow a view of `s` without
copying. -/
def FfiSafeStr.new (s : String) : FfiSafeStr := { data := s }

/-- `FfiSafeStr::as_str` (lines 173-177): read the viewed text back. -/
def FfiSafeStr.as_str (v : FfiSafeStr) : String := v.data

/-- `FfiSafeSlice<T>` (lines 181-184): a borrowed pointer+length view of a
slice owned elsewhere. -/
structure FfiSafeSlice (T : Type) where
  data : List T

/-- `FfiSafeSlice::new` (lines 187-192): borrow a view of the slice. -/
def FfiSafeSlice.new {T : Type} (s : List T) : FfiSafeSlice T := { data := s }

/-- `FfiSafeSlice::as_slice` (lines 196-198): read the viewed slice back. -/
def FfiSafeSlice.as_slice {T : Type} (s : FfiSafeSlice T) : List T := s.data

/-!
## CommandHandler call path (plugin-sdk/src/lib.rs lines 42-80)

The captured callable `F : Fn(&[&str]) -> Result<(), Box<dyn Error>>` is
modelled as a function from the argument list to `Except String Unit`
(`Err` carries only printable text, matching the boundary protocol that
has no structured error payload).  `call` builds transient `FfiSafeStr`
views of the arguments and invokes the stored trampoline; the trampoline
rebuilds `&str` views, runs the callable, prints `ERROR: ...` locally and
returns `false` on failure, `true` on success.  A result is the returned
boolean together with the lines printed.
-/

/-- A `CommandHandler` as seen from the call path: its name and its
captured callable (the closure stored behind `closure_data`, reached
through the matched `trampoline::<F>` stored in `closure_fn`). -/
structure CommandHandler where
  name : String
  closure : List String → Except String Unit

/-- `CommandHandler::trampoline::<F>` (lines 51-80): rebuild the borrowed
argument views, invoke the captured closure, convert an error to a printed
diagnostic plus `false`, and return `true` otherwise. -/
def CommandHandler.trampoline (h : CommandHandler)
    (args : FfiSafeSlice FfiSafeStr) : Bool × List String :=
  let argsCopy := args.as_slice.map FfiSafeStr.as_str
  match h.closure argsCopy with
  | Except.ok _ => (true, [])
  | Except.error e => (false, ["ERROR: " ++ e])

/-- `CommandHandler::call` (lines 42-49): build transient `FfiSafeStr`
views of the arguments, wrap them in a borrowed slice and invoke the
stored trampoline. -/
def CommandHandler.call (h : CommandHandler) (args : List String) : Bool × List String :=
  let argsCopy := args.map FfiSafeStr.new
  h.trampoline (FfiSafeSlice.new argsCopy)

/-- The boolean+diagnostic protocol the specification describes for a
callable outcome: success maps to `true` with no output, failure to
`false` plus a locally printed diagnostic. -/
def callResultSpec : Except String Unit → Bool × List String
  | Except.ok _ => (true, [])
  | Except.error e => (false, ["ERROR: " ++ e])

/-!
## CommandHandler construction / destruction heap model
(plugin-sdk/src/lib.rs lines 19-35 and 84-98)

`CommandHandler::new` boxes the callable (`Box::into_raw`), storing the
raw pointer in `closure_data`.  The matched destructor trampoline
`CommandHandler::drop::<F>` executes

    _ = Box::from(closure_ptr);

`Box::from` here is the blanket `impl From<T> for Box<T>`, i.e.
`Box::new(closure_ptr)`: it allocates a NEW box holding the raw pointer
value and immediately drops that box.  Dropping a raw pointer runs no
destructor, so the captured closure's storage is never reclaimed and its
destructor never runs.  (Reclaiming would require `Box::from_raw`.)

The heap is modelled as the set of live allocations plus a counter of how
many times a captured closure's destructor has actually run.
-/

/-- The allocation state of the SDK heap: the next fresh address, the
addresses of live boxes, and how many captured-closure destructors have
run. -/
structure SdkHeap where
  nextPtr : Nat
  live : List Nat
  closureDrops : Nat
deriving DecidableEq

/-- `Box::into_raw(Box::new(v))`: allocate a fresh cell and hand out its
address. -/
def boxIntoRaw (h : SdkHeap) : SdkHeap × Nat :=
  ({ nextPtr := h.nextPtr + 1, live := h.nextPtr :: h.live,
     closureDrops := h.closureDrops }, h.nextPtr)

/-- A constructed handler as the heap model sees it: the owned name and
the raw address of the captured-closure box. -/
structure AllocatedHandler where
  name : FfiSafeString
  closure_data : Nat
deriving DecidableEq

/-- `CommandHandler::new` (lines 19-35): build the owned name string, box
the callable and store the raw pointer in `closure_data` (the matched
`trampoline::<F>` / `drop::<F>` pair is fixed by construction). -/
def commandHandlerNew (h : SdkHeap) (name : String) : SdkHeap × AllocatedHandler :=
  let (h1, p) := boxIntoRaw h
  (h1, { name := FfiSafeString.new name, closure_data := p })

/-- `CommandHandler::drop::<F>` (lines 84-90) exactly as written:
`_ = Box::from(closure_ptr)` allocates a fresh box holding the pointer
value and immediately drops it again.  The box at `closure_data` is left
live and no closure destructor runs. -/
def commandHandlerDropFn (h : SdkHeap) (closureData : Nat) : SdkHeap :=
  let (h1, tmp) := boxIntoRaw h
  let _ := closureData
  { h1 with live := h1.live.erase tmp }

/-- What the specification says the destroy trampoline does: reclaim the
captured storage (free the box at `closure_data`) and run the captured
state's destructor once.  Rust spelling: `Box::from_raw(closure_ptr)`. -/
def commandHandlerDropFnSpec (h : SdkHeap) (closureData : Nat) : SdkHeap :=
  { h with live := h.live.erase closureData, closureDrops := h.closureDrops + 1 }

end PluginSdk

namespace HostProgram

/-!
## Host program (host-program/src/main.rs)

The host keeps a `PluginState` with the open module handle (a raw pointer,
null when nothing is open), the loaded path (the "a plugin is loaded"
marker checked by both `load-plugin` and `unload-all-plugins`), the
optional custom prompt function pointer, and the command registry
`HashMap<String, CommandHandler>`.

Platform loader behaviour (`dlopen` / `dlsym` / `dlclose` / `dlerror`) and
the loaded module's registration entry point are inputs of the model,
collected in a `Platform` value.  Pointers are `Nat` addresses with `0`
playing the role of the null pointer, exactly the `is_null` checks of the
source.  The `HashMap`'s CONTENTS are modelled as an association list in
insertion order; its key ITERATION order is unspecified, so listing takes
an arbitrary order function constrained only to produce a permutation
(see `isHashOrder`).
-/

/-- A handler as stored in the host's registry: its name and an identity
distinguishing which construction it came from. -/
structure HostHandler where
  name : String
  hid : Nat
deriving DecidableEq

/-- `PluginState` (main.rs lines 108-113).  `module` is the raw module
pointer (0 = null); `path` the loaded path; `custom_prompt_function` the
resolved prompt pointer; `custom_commands` the registry contents in
insertion order. -/
structure PluginState where
  module : Nat
  path : Option String
  custom_prompt_function : Option Nat
  custom_commands : List (String × HostHandler)
deriving DecidableEq

/-- `PluginState::new` (lines 116-123): null module, no path, no prompt,
empty registry. -/
def PluginState.new : PluginState :=
  { module := 0, path := none, custom_prompt_function := none, custom_commands := [] }

/-- The platform loader and the loaded module's behaviour, as the
environment of the host.  `dlopenRes path` is the handle `dlopen`
returns (0 = null = failure); `dlsymRes m name` the address `dlsym`
returns for symbol `name` in module `m` (0 = null = missing);
`dlcloseOk m` whether `dlclose` succeeds; `dlerrorMsg` the diagnostic
`dlerror` reports; `registerEffect p st` the mutation of the host state
performed by calling the module's registration entry point at address `p`
with the state as opaque context; `promptOutput f` the text printed by
calling the module's prompt function at address `f`. -/
structure Platform where
  dlopenRes : String → Nat
  dlsymRes : Nat → String → Nat
  dlcloseOk : Nat → Bool
  dlerrorMsg : String
  registerEffect : Nat → PluginState → PluginState
  promptOutput : Nat → String

/-- `CString::new` fails exactly when the text contains an interior nul
byte, i.e. the character U+0000. -/
def hasNulChar (s : String) : Bool :=
  s.data.any (fun c => c.toNat == 0)

/-- The outcome of one host command: the state afterwards, the lines it
printed, how many times the module's registration entry point was called,
and `some message` when the command returned `Err` (which the `run` loop
propagates with the question-mark operator, ending the process). -/
structure CommandOutcome where
  state : PluginState
  output : List String
  registerCalls : Nat
  err : Option String
deriving DecidableEq

/-- `do_command_load_plugin` (main.rs lines 136-171), step by step:
reject when a plugin is already loaded; require exactly one argument;
build the `CString` (fails on interior nul); `dlopen` (null result is an
error); RECORD the module and path in the state; resolve
`ffi_custom_prompt` (error when null) and store it; resolve
`ffi_register_commands` (error when null); call it once with the state as
opaque context. -/
def do_command_load_plugin (pf : Platform) (args : List String) (st : PluginState) :
    CommandOutcome :=
  if st.path.isSome then
    { state := st,
      output := ["plugin already loaded, multiple plugins are not supported yet"],
      registerCalls := 0, err := none }
  else
    match args with
    | [path] =>
      if hasNulChar path then
        { state := st, output := [], registerCalls := 0,
          err := some "nul byte found in provided data" }
      else
        let m := pf.dlopenRes path
        if m = 0 then
          { state := st, output := [], registerCalls := 0, err := some pf.dlerrorMsg }
        else
          let st1 := { st with module := m, path := some path }
          let fp := pf.dlsymRes m "ffi_custom_prompt"
          if fp = 0 then
            { state := st1, output := [], registerCalls := 0, err := some pf.dlerrorMsg }
          else
            let st2 := { st1 with custom_prompt_function := some fp }
            let rc := pf.dlsymRes m "ffi_register_commands"
            if rc = 0 then
              { state := st2, output := [], registerCalls := 0, err := some pf.dlerrorMsg }
            else
              { state := pf.registerEffect rc st2, output := [], registerCalls := 1,
                err := none }
    | _ =>
      { state := st, output := ["expected a file path as first argument"],
        registerCalls := 0, err := none }

/-- `do_command_unload_all_plugins` (main.rs lines 186-205): report and
keep going when nothing is loaded; otherwise `dlclose` FIRST — a failing
close returns `Err` immediately, leaving the whole state (registry and
prompt included) untouched; only after a successful close are the path
taken, the module nulled, the prompt cleared and the registry emptied. -/
def do_command_unload_all_plugins (pf : Platform) (st : PluginState) :
    PluginState × List String × Option String :=
  if st.path.isNone then
    (st, ["no plugins loaded yet"], none)
  else if pf.dlcloseOk st.module then
    ({ module := 0, path := none, custom_prompt_function := none, custom_commands := [] },
     ["unloaded plugin " ++ st.path.getD ""], none)
  else
    (st, [], some pf.dlerrorMsg)

/-- `ffi_register_command` (main.rs lines 217-236): recover the host state
from the opaque context, look the handler's name up in the registry; an
occupied entry prints an error and returns `false` with the registry
untouched — the rejected handler, owned by value, is dropped when the
function returns, running its destroy trampoline once; a vacant entry
stores the handler and returns `true`.  The result is (new state,
returned boolean, number of destroy-trampoline runs on the passed
handler during the call). -/
def ffi_register_command (st : PluginState) (h : HostHandler) :
    PluginState × Bool × Nat :=
  if (st.custom_commands.lookup h.name).isSome then
    (st, false, 1)
  else
    ({ st with custom_commands := st.custom_commands ++ [(h.name, h)] }, true, 0)

/-- `display_command_line_prompt` (main.rs lines 56-69): call the module's
prompt function when one is installed, otherwise print the default
prompt. -/
def display_command_line_prompt (pf : Platform) (st : PluginState) : String :=
  match st.custom_prompt_function with
  | some f => pf.promptOutput f
  | none => "> "

/-- An iteration order a `HashMap` might expose: any function producing a
permutation of the keys (Rust's `HashMap` promises nothing more about
`keys()`). -/
def isHashOrder (order : List String → List String) : Prop :=
  ∀ l, List.Perm (order l) l

/-- The plugin-command names `do_command_help` (main.rs lines 71-84) lists:
the registry's keys in the map's iteration order. -/
def pluginCommandsListing (order : List String → List String) (st : PluginState) :
    List String :=
  order (st.custom_commands.map Prod.fst)

/-- `do_command_help` output (main.rs lines 71-84): the fixed command list
followed, when the registry is nonempty, by the plugin commands in the
map's iteration order. -/
def do_command_help (order : List String → List String) (st : PluginState) :
    List String :=
  ["supported commands:", "   help", "   echo", "   exit", "   load-plugin",
   "   unload-all-plugins"] ++
  (if st.custom_commands.isEmpty then []
   else "commands from plugins:" :: (pluginCommandsListing order st).map (fun c => "   " ++ c))

/-- Registering a sequence of handlers one after the other through
`ffi_register_command` (what a module's registration entry point does). -/
def registerAll : PluginState → List HostHandler → PluginState
  | st, [] => st
  | st, h :: hs => registerAll (ffi_register_command st h).1 hs

/-- How the `run` loop (main.rs lines 14-54) ends: normally (EOF or
`exit`), or by an `Err` propagated out of a command (which `main` then
prints before the process terminates). -/
inductive RunOutcome where
  | finished : RunOutcome
  | errored : String → RunOutcome
deriving DecidableEq

/-- The `run` loop (main.rs lines 14-54) over a script of already-parsed
command lines.  `help`, `echo` and plugin/unknown commands never return
`Err` (`do_plugin_command` always returns `Ok`), so they continue;
`exit` stops normally; `load-plugin` and `unload-all-plugins` propagate
an `Err` with the question-mark operator, which ends the loop — and the
process — instead of continuing with the remaining input. -/
def runScript (pf : Platform) : PluginState → List (String × List String) →
    PluginState × RunOutcome
  | st, [] => (st, RunOutcome.finished)
  | st, (cmd, args) :: rest =>
    if cmd = "exit" then
      (st, RunOutcome.finished)
    else if cmd = "load-plugin" then
      let r := do_command_load_plugin pf args st
      match r.err with
      | some m => (r.state, RunOutcome.errored m)
      | none => runScript pf r.state rest
    else if cmd = "unload-all-plugins" then
      match do_command_unload_all_plugins pf st with
      | (st2, _, some m) => (st2, RunOutcome.errored m)
      | (st2, _, none) => runScript pf st2 rest
    else
      runScript pf st rest

/-- The symbols the sample plugin (sample-plugin/src/lib.rs) exports, with
their addresses in a module opened at handle 1: `ffi_custom_prompt`
(line 6) and `ffi_plugin_on_load` (line 17).  It exports no symbol named
`ffi_register_commands`. -/
def samplePluginSymbols : String → Nat :=
  fun name =>
    if name = "ffi_custom_prompt" then 2
    else if name = "ffi_plugin_on_load" then 3
    else 0

/-- A platform on which the sample plugin is present at path
"libsample_plugin.so" and opens successfully, and every `dlclose`
succeeds. -/
def samplePluginPlatform : Platform :=
  { dlopenRes := fun p => if p = "libsample_plugin.so" then 1 else 0,
    dlsymRes := fun m name => if m = 1 then samplePluginSymbols name else 0,
    dlcloseOk := fun _ => true,
    dlerrorMsg := "undefined symbol",
    registerEffect := fun _ st => st,
    promptOutput := fun _ => "0 $ " }

end HostProgram

namespace HostProgram

/-- A platform on which no module opens except "good.so", which exports
both entry points the host resolves. -/
def failThenGoodPlatform : Platform :=
  { dlopenRes := fun p => if p = "good.so" then 1 else 0,
    dlsymRes := fun m name =>
      if m = 1 then
        if name = "ffi_custom_prompt" then 2
        else if name = "ffi_register_commands" then 3
        else 0
      else 0,
    dlcloseOk := fun _ => true,
    dlerrorMsg := "cannot open shared object file",
    registerEffect := fun _ st => st,
    promptOutput := fun _ => "" }

/-- A platform whose single module opens fine but exports only the
registration entry point, not `ffi_custom_prompt`. -/
def noPromptPlatform : Platform :=
  { dlopenRes := fun _ => 1,
    dlsymRes := fun m name => if m = 1 ∧ name = "ffi_register_commands" then 3 else 0,
    dlcloseOk := fun _ => true,
    dlerrorMsg := "undefined symbol",
    registerEffect := fun _ st => st,
    promptOutput := fun _ => "" }

/-- A platform whose single module opens fine and exports both entry
points the host resolves, with an inert registration effect. -/
def goodPlatform : Platform :=
  { dlopenRes := fun _ => 1,
    dlsymRes := fun m name =>
      if m = 1 then
        if name = "ffi_custom_prompt" then 2
        else if name = "ffi_register_commands" then 3
        else 0
      else 0,
    dlcloseOk := fun _ => true,
    dlerrorMsg := "dlerror text",
    registerEffect := fun _ st => st,
    promptOutput := fun f => if f = 2 then "0 $ " else "" }

/-- A platform on which the loaded module's `dlclose` fails. -/
def failingClosePlatform : Platform :=
  { dlopenRes := fun _ => 1,
    dlsymRes := fun _ _ => 0,
    dlcloseOk := fun _ => false,
    dlerrorMsg := "dlclose failed",
    registerEffect := fun _ st => st,
    promptOutput := fun _ => "" }

/-- A host state with a module loaded, a custom prompt installed and one
plugin command registered. -/
def loadedStateWithCommand : PluginState :=
  { module := 1, path := some "p.so", custom_prompt_function := some 2,
    custom_commands := [("count", { name := "count", hid := 1 })] }

/-- The claim that `help` lists plugin command names in registration
order, for every iteration order the hash map might expose and every
sequence of distinct-name registrations. -/
def helpListsInsertionOrderClaim : Prop :=
  ∀ order, isHashOrder order →
    ∀ hs : List HostHandler, (hs.map HostHandler.name).Nodup →
      pluginCommandsListing order (registerAll PluginState.new hs) = hs.map HostHandler.name

end HostProgram

namespace PluginSdk

/-- Decoding the empty byte list yields the empty text. -/
theorem utf8DecodeText_nil : utf8DecodeText [] = some [] := by
  unfold utf8DecodeText
  rfl

/-- When one decode step succeeds, the whole decode is that code point
followed by the decode of the remainder. -/
theorem utf8DecodeText_of_step_some (l : List Nat) (c : Nat) (r : List Nat)
    (h : utf8DecodeStep l = some (c, r)) :
    utf8DecodeText l = (utf8DecodeText r).map (fun t => c :: t) := by
  conv_lhs => rw [utf8DecodeText.eq_def]
  split
  · rename_i heq
    rw [h] at heq
    cases heq
  · rename_i c2 r2 heq
    rw [h] at heq
    cases heq
    rfl

/-- One decode step on the UTF-8 encoding of a valid scalar value
followed by any tail recovers exactly that scalar and the tail. -/
theorem utf8DecodeStep_encodeChar (n : Nat) (hv : Nat.isValidChar n) (rest : List Nat) :
    utf8DecodeStep (utf8EncodeCharNat n ++ rest) = some (n, rest) := by
  have hmax : n < 0x110000 := by
    rcases hv with h | h
    · omega
    · omega
  by_cases h1 : n ≤ 0x7f
  · have hb : n < 0x80 := by omega
    simp [utf8EncodeCharNat, h1, utf8DecodeStep, hb]
  · by_cases h2 : n ≤ 0x7ff
    · have c1 : ¬ (0xc0 + n / 64 < 0x80) := by omega
      have c2 : ¬ (0xc0 + n / 64 < 0xc2) := by omega
      have c3 : 0xc0 + n / 64 < 0xe0 := by omega
      have c4 : 0x80 ≤ 0x80 + n % 64 ∧ 0x80 + n % 64 < 0xc0 := by omega
      simp [utf8EncodeCharNat, h1, h2, utf8DecodeStep, decodeTail1, c1, c2, c3, c4]
      omega
    · by_cases h3 : n ≤ 0xffff
      · have c1 : ¬ (0xe0 + n / 4096 < 0x80) := by omega
        have c2 : ¬ (0xe0 + n / 4096 < 0xc2) := by omega
        have c3 : ¬ (0xe0 + n / 4096 < 0xe0) := by omega
        have c4 : 0xe0 + n / 4096 < 0xf0 := by omega
        have c5 : 0x80 ≤ 0x80 + n / 64 % 64 ∧ 0x80 + n / 64 % 64 < 0xc0 := by omega
        have c6 : 0x80 ≤ 0x80 + n % 64 ∧ 0x80 + n % 64 < 0xc0 := by omega
        simp [utf8EncodeCharNat, h1, h2, h3, utf8DecodeStep, decodeTail2, c1, c2, c3, c4,
          c5, c6]
        omega
      · have c1 : ¬ (0xf0 + n / 262144 < 0x80) := by omega
        have c2 : ¬ (0xf0 + n / 262144 < 0xc2) := by omega
        have c3 : ¬ (0xf0 + n / 262144 < 0xe0) := by omega
        have c4 : ¬ (0xf0 + n / 262144 < 0xf0) := by omega
        have c5 : 0xf0 + n / 262144 < 0xf5 := by omega
        have c6 : 0x80 ≤ 0x80 + n / 4096 % 64 ∧ 0x80 + n / 4096 % 64 < 0xc0 := by omega
        have c7 : 0x80 ≤ 0x80 + n / 64 % 64 ∧ 0x80 + n / 64 % 64 < 0xc0 := by omega
        have c8 : 0x80 ≤ 0x80 + n % 64 ∧ 0x80 + n % 64 < 0xc0 := by omega
        simp [utf8EncodeCharNat, h1, h2, h3, utf8DecodeStep, decodeTail3, c1, c2, c3, c4,
          c5, c6, c7, c8]
        omega

/-- Decoding the UTF-8 encoding of one valid scalar value prefixed to any
byte tail peels off exactly that scalar. -/
theorem utf8DecodeText_encodeChar_append (n : Nat) (hv : Nat.isValidChar n)
    (rest : List Nat) :
    utf8DecodeText (utf8EncodeCharNat n ++ rest) =
      (utf8DecodeText rest).map (fun t => n :: t) :=
  utf8DecodeText_of_step_some _ _ _ (utf8DecodeStep_encodeChar n hv rest)

/-- Decoding the UTF-8 encoding of any text recovers exactly its code
points. -/
theorem utf8DecodeText_encodeText (cs : List Char) :
    utf8DecodeText (utf8EncodeText cs) = some (cs.map Char.toNat) := by
  induction cs with
  | nil => exact utf8DecodeText_nil
  | cons c cs ih =>
    have hv : Nat.isValidChar c.toNat := c.valid
    have hstep : utf8EncodeText (c :: cs) = utf8EncodeCharNat c.toNat ++ utf8EncodeText cs := by
      simp [utf8EncodeText]
    rw [hstep, utf8DecodeText_encodeChar_append c.toNat hv, ih]
    simp

end PluginSdk

namespace HostProgram

/-- A key absent from an association list's key column is not found by
`lookup`. -/
theorem lookup_eq_none_of_not_mem_keys (l : List (String × HostHandler)) (a : String)
    (h : a ∉ l.map Prod.fst) : l.lookup a = none := by
  induction l with
  | nil => rfl
  | cons p l ih =>
    simp only [List.map_cons, List.mem_cons, not_or] at h
    obtain ⟨h1, h2⟩ := h
    have hbeq : (a == p.1) = false := beq_eq_false_iff_ne.mpr h1
    cases p with
    | mk k v =>
      simp only at hbeq
      simp [List.lookup, hbeq, ih h2]

/-- Registering a list of handlers with fresh, pairwise distinct names
appends exactly those names to the registry's key column, in order. -/
theorem registerAll_keys (hs : List HostHandler) :
    ∀ st : PluginState,
      (st.custom_commands.map Prod.fst ++ hs.map HostHandler.name).Nodup →
      (registerAll st hs).custom_commands.map Prod.fst =
        st.custom_commands.map Prod.fst ++ hs.map HostHandler.name := by
  induction hs with
  | nil =>
    intro st h
    simp [registerAll]
  | cons hd tl ih =>
    intro st h
    have hnotin : hd.name ∉ st.custom_commands.map Prod.fst := by
      rw [List.nodup_append] at h
      intro hmem
      exact h.2.2 hmem (by simp)
    have hlook : st.custom_commands.lookup hd.name = none :=
      lookup_eq_none_of_not_mem_keys _ _ hnotin
    have hstep : (ffi_register_command st hd).1 =
        { st with custom_commands := st.custom_commands ++ [(hd.name, hd)] } := by
      simp [ffi_register_command, hlook]
    simp only [registerAll, hstep]
    rw [ih]
    · simp
    · simpa [List.append_assoc] using h

end HostProgram

/-- Claim C1 (counterexample): on a platform where `dlopen` fails for
"bad.so" and a fully valid module lives at "good.so", running the script
`load-plugin bad.so` then `load-plugin good.so` does NOT keep the host
running: the loop ends with the propagated loader error, the second
command is never processed, and no module is loaded at the end — against
the claim that the host keeps running and the subsequent valid load
succeeds. -/
theorem load_failure_aborts_run_counterexample :
    (HostProgram.runScript HostProgram.failThenGoodPlatform HostProgram.PluginState.new
        [("load-plugin", ["bad.so"]), ("load-plugin", ["good.so"])]).2
      = HostProgram.RunOutcome.errored "cannot open shared object file" ∧
    (HostProgram.runScript HostProgram.failThenGoodPlatform HostProgram.PluginState.new
        [("load-plugin", ["bad.so"]), ("load-plugin", ["good.so"])]).1.path = none := by
  decide

/-- Claim C1 (amended): when `load-plugin` fails because the platform
loader cannot open the path, no module is marked loaded (the state is
completely unchanged), but the error propagates out of the command loop
and terminates the host, so no subsequent command — a valid `load-plugin`
included — is processed.  Only failures detected before the platform
call (wrong argument count, plugin already loaded) leave the loop
running. -/
theorem load_platform_failure_terminates_host (pf : HostProgram.Platform)
    (st : HostProgram.PluginState) (path : String)
    (rest : List (String × List String))
    (h1 : st.path = none) (h2 : HostProgram.hasNulChar path = false)
    (h3 : pf.dlopenRes path = 0) :
    HostProgram.runScript pf st (("load-plugin", [path]) :: rest)
      = (st, HostProgram.RunOutcome.errored pf.dlerrorMsg) := by
  simp [HostProgram.runScript, HostProgram.do_command_load_plugin, h1, h2, h3]

/-- Witness for C1 (amended) at a concrete platform and script. -/
theorem load_platform_failure_terminates_host_witness :
    HostProgram.runScript HostProgram.failThenGoodPlatform HostProgram.PluginState.new
        [("load-plugin", ["bad.so"])]
      = (HostProgram.PluginState.new,
         HostProgram.RunOutcome.errored "cannot open shared object file") :=
  load_platform_failure_terminates_host HostProgram.failThenGoodPlatform
    HostProgram.PluginState.new "bad.so" [] rfl (by decide) (by decide)

/-- Claim C2 (code evaluation): constructing one handler and running its
destroy trampoline, exactly as `CommandHandler::drop` is written
(`_ = Box::from(closure_ptr)`, the blanket `From<T> for Box<T>`, not
`Box::from_raw`), runs zero captured-state destructors and leaves the
captured-closure box live — the captured storage is never reclaimed,
against the claim that destruction reclaims it and destructors run once
per construction. -/
theorem drop_trampoline_never_frees_capture :
    ((PluginSdk.commandHandlerDropFn
        (PluginSdk.commandHandlerNew
          { nextPtr := 1, live := [], closureDrops := 0 } "reset-counter").1
        (PluginSdk.commandHandlerNew
          { nextPtr := 1, live := [], closureDrops := 0 } "reset-counter").2.closure_data
      ).closureDrops = 0) ∧
    ((PluginSdk.commandHandlerNew
        { nextPtr := 1, live := [], closureDrops := 0 } "reset-counter").2.closure_data ∈
      (PluginSdk.commandHandlerDropFn
        (PluginSdk.commandHandlerNew
          { nextPtr := 1, live := [], closureDrops := 0 } "reset-counter").1
        (PluginSdk.commandHandlerNew
          { nextPtr := 1, live := [], closureDrops := 0 } "reset-counter").2.closure_data
      ).live) := by
  decide

/-- Claim C3 (code evaluation): loading the sample plugin — which exports
`ffi_custom_prompt` and `ffi_plugin_on_load` — fails at symbol
resolution, because the host looks up the name `ffi_register_commands`;
the registration entry point is called zero times, against the claim
that after loading the sample plugin the host resolves the entry point
the module exports and calls it exactly once. -/
theorem sample_plugin_register_entry_never_called :
    (HostProgram.do_command_load_plugin HostProgram.samplePluginPlatform
        ["libsample_plugin.so"] HostProgram.PluginState.new).registerCalls = 0 ∧
    (HostProgram.do_command_load_plugin HostProgram.samplePluginPlatform
        ["libsample_plugin.so"] HostProgram.PluginState.new).err
      = some "undefined symbol" := by
  decide

/-- Claim C4 (counterexample): a module that opens fine and exports the
registration entry point but no `ffi_custom_prompt` does NOT load
successfully — `do_command_load_plugin` returns an error — against the
claim that the custom-prompt entry point is optional and the load still
succeeds without it. -/
theorem custom_prompt_missing_fails_load_counterexample :
    (HostProgram.do_command_load_plugin HostProgram.noPromptPlatform ["p"]
        HostProgram.PluginState.new).err ≠ none := by
  decide

/-- Claim C4 (amended): the custom-prompt entry point is REQUIRED, not
optional: when the module does not export it, symbol resolution fails and
the load errors out; when it is exported (and registration does not
touch the prompt field), the load succeeds, the pointer is installed as
the custom prompt, and prompt display uses the module's function instead
of the default "> " prompt, which is used exactly when no custom prompt
is installed. -/
theorem custom_prompt_required_and_replaces_default (pf : HostProgram.Platform)
    (st : HostProgram.PluginState) (path : String)
    (h1 : st.path = none) (h2 : HostProgram.hasNulChar path = false)
    (h3 : pf.dlopenRes path ≠ 0) :
    (pf.dlsymRes (pf.dlopenRes path) "ffi_custom_prompt" = 0 →
      (HostProgram.do_command_load_plugin pf [path] st).err.isSome) ∧
    (pf.dlsymRes (pf.dlopenRes path) "ffi_custom_prompt" ≠ 0 →
     pf.dlsymRes (pf.dlopenRes path) "ffi_register_commands" ≠ 0 →
     (∀ s, (pf.registerEffect (pf.dlsymRes (pf.dlopenRes path) "ffi_register_commands")
              s).custom_prompt_function = s.custom_prompt_function) →
      (HostProgram.do_command_load_plugin pf [path] st).err = none ∧
      (HostProgram.do_command_load_plugin pf [path] st).state.custom_prompt_function
        = some (pf.dlsymRes (pf.dlopenRes path) "ffi_custom_prompt") ∧
      HostProgram.display_command_line_prompt pf
          (HostProgram.do_command_load_plugin pf [path] st).state
        = pf.promptOutput (pf.dlsymRes (pf.dlopenRes path) "ffi_custom_prompt")) ∧
    (∀ s, s.custom_prompt_function = none →
      HostProgram.display_command_line_prompt pf s = "> ") := by
  refine ⟨?_, ?_, ?_⟩
  · intro hfp
    simp [HostProgram.do_command_load_plugin, h1, h2, h3, hfp]
  · intro hfp hrc hpres
    simp [HostProgram.do_command_load_plugin, h1, h2, h3, hfp, hrc, hpres,
      HostProgram.display_command_line_prompt]
  · intro s hs
    simp [HostProgram.display_command_line_prompt, hs]

/-- Witness for C4 (amended) at a concrete platform whose module exports
both entry points with an inert registration effect. -/
theorem custom_prompt_required_and_replaces_default_witness :
    (HostProgram.do_command_load_plugin HostProgram.goodPlatform ["p"]
        HostProgram.PluginState.new).err = none ∧
    (HostProgram.do_command_load_plugin HostProgram.goodPlatform ["p"]
        HostProgram.PluginState.new).state.custom_prompt_function = some 2 ∧
    HostProgram.display_command_line_prompt HostProgram.goodPlatform
        (HostProgram.do_command_load_plugin HostProgram.goodPlatform ["p"]
          HostProgram.PluginState.new).state = "0 $ " :=
  (custom_prompt_required_and_replaces_default HostProgram.goodPlatform
      HostProgram.PluginState.new "p" rfl (by decide) (by decide)).2.1
    (by decide) (by decide) (fun s => rfl)

/-- Claim C5 (counterexample): when the platform's unload call fails,
`do_command_unload_all_plugins` returns the error with the registry and
the custom-prompt pointer still in place — against the claim that every
unload path, a failing platform unload included, leaves no registry entry
or prompt pointer behind. -/
theorem unload_failure_leaves_registry_counterexample :
    (HostProgram.do_command_unload_all_plugins HostProgram.failingClosePlatform
        HostProgram.loadedStateWithCommand).1.custom_commands ≠ [] ∧
    (HostProgram.do_command_unload_all_plugins HostProgram.failingClosePlatform
        HostProgram.loadedStateWithCommand).1.custom_prompt_function ≠ none := by
  decide

/-- Claim C5 (amended): unload clears the registry and the prompt
reference only AFTER a successful platform unload call: on success the
state is reset to the pristine state (no module, no path, no prompt,
empty registry); on a failing platform unload the whole state — registry
entries and prompt pointer included — is left untouched and the error
propagates (terminating the host). -/
theorem unload_clears_only_after_successful_close (pf : HostProgram.Platform)
    (st : HostProgram.PluginState) (h : st.path.isSome) :
    (pf.dlcloseOk st.module = true →
      (HostProgram.do_command_unload_all_plugins pf st).1 = HostProgram.PluginState.new) ∧
    (pf.dlcloseOk st.module = false →
      (HostProgram.do_command_unload_all_plugins pf st).1 = st ∧
      (HostProgram.do_command_unload_all_plugins pf st).2.2 = some pf.dlerrorMsg) := by
  obtain ⟨p, hp⟩ := Option.isSome_iff_exists.mp h
  constructor
  · intro hc
    simp [HostProgram.do_command_unload_all_plugins, hp, hc, HostProgram.PluginState.new]
  · intro hc
    simp [HostProgram.do_command_unload_all_plugins, hp, hc]

/-- Witness for C5 (amended) on the failing-close platform. -/
theorem unload_clears_only_after_successful_close_witness :
    (HostProgram.do_command_unload_all_plugins HostProgram.failingClosePlatform
        HostProgram.loadedStateWithCommand).1 = HostProgram.loadedStateWithCommand ∧
    (HostProgram.do_command_unload_all_plugins HostProgram.failingClosePlatform
        HostProgram.loadedStateWithCommand).2.2 = some "dlclose failed" :=
  (unload_clears_only_after_successful_close HostProgram.failingClosePlatform
      HostProgram.loadedStateWithCommand (by decide)).2 (by decide)

/-- Claim C6 (counterexample): it is NOT the case that for every
iteration order the hash map may expose and every sequence of
distinct-name registrations, `help` lists the plugin command names in
registration order — the registry is a `HashMap`, whose key iteration
order is unspecified; a reversed (but permissible) iteration order
already breaks the claim for the two registrations "a", "b". -/
theorem help_listing_not_insertion_order : ¬ HostProgram.helpListsInsertionOrderClaim := by
  intro hclaim
  have h := hclaim List.reverse (fun l => l.reverse_perm)
    [{ name := "a", hid := 1 }, { name := "b", hid := 2 }] (by decide)
  exact absurd h (by decide)

/-- Claim C6 (amended): for every iteration order the hash map may expose
(any permutation) and every sequence of registrations with pairwise
distinct names, `help` lists exactly the registered command names — as a
permutation of them, with no guarantee about the order. -/
theorem help_lists_registered_names_up_to_order (order : List String → List String)
    (ho : HostProgram.isHashOrder order) (hs : List HostProgram.HostHandler)
    (hnd : (hs.map HostProgram.HostHandler.name).Nodup) :
    List.Perm
      (HostProgram.pluginCommandsListing order
        (HostProgram.registerAll HostProgram.PluginState.new hs))
      (hs.map HostProgram.HostHandler.name) := by
  have hkeys := HostProgram.registerAll_keys hs HostProgram.PluginState.new
    (by simpa [HostProgram.PluginState.new] using hnd)
  unfold HostProgram.pluginCommandsListing
  rw [hkeys]
  simpa [HostProgram.PluginState.new] using ho (hs.map HostProgram.HostHandler.name)

/-- Witness for C6 (amended) with the identity iteration order and two
registrations. -/
theorem help_lists_registered_names_up_to_order_witness :
    List.Perm
      (HostProgram.pluginCommandsListing id
        (HostProgram.registerAll HostProgram.PluginState.new
          [{ name := "a", hid := 1 }, { name := "b", hid := 2 }]))
      ["a", "b"] :=
  help_lists_registered_names_up_to_order id (fun l => List.Perm.refl l)
    [{ name := "a", hid := 1 }, { name := "b", hid := 2 }] (by decide)

/-- Claim C7: registering a handler whose name is already in the registry
returns `false` and leaves the state — registry included — completely
unchanged, so the first handler keeps its place and every other command
stays usable; the rejected handler's destroy trampoline runs exactly
once during the call. -/
theorem duplicate_registration_rejected (st : HostProgram.PluginState)
    (h : HostProgram.HostHandler)
    (hdup : (st.custom_commands.lookup h.name).isSome) :
    HostProgram.ffi_register_command st h = (st, false, 1) := by
  simp [HostProgram.ffi_register_command, hdup]

/-- Witness for C7: re-registering the name "count" on a state that
already holds it. -/
theorem duplicate_registration_rejected_witness :
    HostProgram.ffi_register_command HostProgram.loadedStateWithCommand
        { name := "count", hid := 2 }
      = (HostProgram.loadedStateWithCommand, false, 1) :=
  duplicate_registration_rejected HostProgram.loadedStateWithCommand
    { name := "count", hid := 2 } (by decide)

/-- Claim C8: for every handler and argument list, `call` builds the
transient borrowed argument views, invokes the stored trampoline, and the
outcome follows the boolean+diagnostic protocol exactly: `true` with no
output when the captured callable succeeds, `false` plus a locally
printed `ERROR: ...` diagnostic when it fails — nothing else crosses the
trampoline boundary. -/
theorem call_follows_boolean_protocol (h : PluginSdk.CommandHandler) (args : List String) :
    h.call args = PluginSdk.callResultSpec (h.closure args) := by
  unfold PluginSdk.CommandHandler.call PluginSdk.CommandHandler.trampoline
    PluginSdk.callResultSpec
  have harg : (args.map PluginSdk.FfiSafeStr.new).map PluginSdk.FfiSafeStr.as_str = args := by
    simp [PluginSdk.FfiSafeStr.new, PluginSdk.FfiSafeStr.as_str, List.map_map,
      Function.comp_def]
  simp [PluginSdk.FfiSafeSlice.new, PluginSdk.FfiSafeSlice.as_slice, harg]

/-- Claim C9: constructing an owned ABI string from any valid text — the
empty string included — and reading it back yields exactly that text. -/
theorem ffi_safe_string_round_trip (s : String) :
    (PluginSdk.FfiSafeString.new s).as_str = some s := by
  cases s with
  | mk data =>
    unfold PluginSdk.FfiSafeString.new PluginSdk.FfiSafeString.as_str
    simp [List.take_length, PluginSdk.utf8DecodeText_encodeText, List.map_map,
      Function.comp_def, Char.ofNat_toNat]

/-- Claim C10: `do_command_load_plugin` records the module handle and the
path in the host state BEFORE resolving any entry-point symbol, so when
the module opens but a required symbol (`ffi_custom_prompt` or
`ffi_register_commands`) is missing, the load returns an error while the
state is already marked as having a module loaded — the operation is not
atomic on this error path. -/
theorem load_marks_loaded_before_symbol_resolution (pf : HostProgram.Platform)
    (st : HostProgram.PluginState) (path : String)
    (h1 : st.path = none) (h2 : HostProgram.hasNulChar path = false)
    (h3 : pf.dlopenRes path ≠ 0)
    (h4 : pf.dlsymRes (pf.dlopenRes path) "ffi_custom_prompt" = 0 ∨
          pf.dlsymRes (pf.dlopenRes path) "ffi_register_commands" = 0) :
    (HostProgram.do_command_load_plugin pf [path] st).err.isSome ∧
    (HostProgram.do_command_load_plugin pf [path] st).state.path = some path ∧
    (HostProgram.do_command_load_plugin pf [path] st).state.module = pf.dlopenRes path := by
  by_cases hfp : pf.dlsymRes (pf.dlopenRes path) "ffi_custom_prompt" = 0
  · simp [HostProgram.do_command_load_plugin, h1, h2, h3, hfp]
  · have hrc : pf.dlsymRes (pf.dlopenRes path) "ffi_register_commands" = 0 :=
      h4.resolve_left hfp
    simp [HostProgram.do_command_load_plugin, h1, h2, h3, hfp, hrc]

/-- Witness for C10 on a platform whose module lacks `ffi_custom_prompt`. -/
theorem load_marks_loaded_before_symbol_resolution_witness :
    (HostProgram.do_command_load_plugin HostProgram.noPromptPlatform ["p"]
        HostProgram.PluginState.new).err.isSome ∧
    (HostProgram.do_command_load_plugin HostProgram.noPromptPlatform ["p"]
        HostProgram.PluginState.new).state.path = some "p" ∧
    (HostProgram.do_command_load_plugin HostProgram.noPromptPlatform ["p"]
        HostProgram.PluginState.new).state.module
      = HostProgram.noPromptPlatform.dlopenRes "p" :=
  load_marks_loaded_before_symbol_resolution HostProgram.noPromptPlatform
    HostProgram.PluginState.new "p" rfl (by decide) (by decide) (Or.inl (by decide))
